import Mathlib

/-!
Verification development for the Audio_to_Text-and-Text_to_Audio service.

This file shallowly embeds the two FastAPI request handlers of `main.py`:

* `text_to_speech` (the `POST /tts` endpoint), which invokes the Kokoro
  synthesis pipeline, drains the generator of `(graphemes, phonemes, audio)`
  triples, concatenates the audio chunks, and returns a WAV response; and
* `transcribe_audio` (the `POST /transcribe/` endpoint), which checks the
  uploaded file content type, writes the bytes to a temporary file
  (`tempfile.NamedTemporaryFile(delete=False)`), runs the Whisper model on
  the path, and removes the temporary file in a `finally` block guarded by
  `if tmp_file_path and os.path.exists(tmp_file_path)`.

External components (the Kokoro pipeline, the Whisper model, the upload
stream) are parameters of the handlers: each is a function returning
`Except String _`, where `Except.error e` stands for a raised Python
exception whose string rendering is `e`.  Audio samples are modelled as
`List Int`, byte strings as `List Nat`, and the WAV container produced by
`soundfile.write(buffer, data, 24000, format=WAV)` as a structure pairing
the sample rate with the sample data.
-/

namespace AudioService

/-- One audio segment produced by the synthesis model (a numpy array of
samples in the source). -/
abbrev Chunk := List Int

/-- The WAV byte stream written by `sf.write(buffer, audio_data, 24000,
format=WAV)`: a container recording the sample rate and the samples. -/
structure WavStream where
  sampleRate : Nat
  samples : List Int
deriving DecidableEq, Repr

/-- Body of an HTTP response built by the service: either plain text
(`Response(content=<str>, ...)`) or WAV bytes. -/
inductive Body where
  | text (s : String)
  | wav (w : WavStream)
deriving DecidableEq, Repr

/-- A FastAPI `Response`: status code (default 200), optional media type
(`media_type=None` unless given), and content. -/
structure HttpResponse where
  status : Nat
  media_type : Option String
  content : Body
deriving DecidableEq, Repr

/-- Request body of `POST /tts` (`class TextRequest(BaseModel)` in the
source), with the source's default voice. -/
structure TextRequest where
  text : String
  voice : String := "af_heart"
deriving DecidableEq, Repr

/-- What draining `tts_pipeline(text, voice=...)` yields: a finite list of
`(graphemes, phonemes, audio_chunk)` triples.  The source keeps only the
third component of each triple. -/
abbrev KGenerator := List (String × String × Chunk)

/-- The Kokoro pipeline handle: calling and draining it either yields the
list of triples or raises (modelled as `Except.error` with the exception
text). -/
abbrev Pipeline := String → String → Except String KGenerator

/-- Result of one `/tts` request: the HTTP response together with whether
the synthesis pipeline was actually invoked. -/
structure TTSRun where
  response : HttpResponse
  modelInvoked : Bool
deriving DecidableEq, Repr

/-- Shallow embedding of the `text_to_speech` handler of `main.py`.
`tts_pipeline = none` models the initialization failure path that sets the
global handle to `None`.  Mirrors the source line by line: the `None`
check, the generator drain into `all_audio_chunks`, the empty check, the
`np.concatenate` (list concatenation in production order), and the WAV
encoding at sample rate 24000; a raise inside the `try` is answered with a
500 response carrying the exception text. -/
def text_to_speech (tts_pipeline : Option Pipeline) (request : TextRequest) : TTSRun :=
  match tts_pipeline with
  | none =>
      { response := { status := 500, media_type := none,
                      content := .text "Model not available. Check server logs." },
        modelInvoked := false }
  | some pipeline =>
      match pipeline request.text request.voice with
      | .error e =>
          { response := { status := 500, media_type := none,
                          content := .text ("Internal Server Error: " ++ e) },
            modelInvoked := true }
      | .ok generator =>
          let all_audio_chunks := generator.map (fun g => g.2.2)
          if all_audio_chunks.isEmpty then
            { response := { status := 400, media_type := none,
                            content := .text "No audio generated for the provided text." },
              modelInvoked := true }
          else
            let audio_data := all_audio_chunks.flatten
            { response := { status := 200, media_type := some "audio/wav",
                            content := .wav { sampleRate := 24000, samples := audio_data } },
              modelInvoked := true }

/-- Python `str.startswith(p)`, computed on the character lists so that it
reduces in the kernel. -/
def pyStartswith (s p : String) : Bool :=
  p.data.isPrefixOf s.data

/-- Python `str.strip()`: drop whitespace characters from both ends of the
string. -/
def pyStrip (s : String) : String :=
  ⟨((s.data.dropWhile Char.isWhitespace).reverse.dropWhile Char.isWhitespace).reverse⟩

/-- The value whisper returns from `asr_model.transcribe(path)`, keeping the
field the handler reads (`result["text"]`). -/
structure TranscribeResult where
  text : String
deriving DecidableEq, Repr

/-- The Whisper model handle: maps the temporary file path to a result or a
raised exception. -/
abbrev ASRModel := String → Except String TranscribeResult

/-- The uploaded file as the handler sees it: the declared content type
(absent = Python `None`) and the outcome of `tmp_file.write(await
file.read())` (`Except.error e` = that step raised with message `e`). -/
structure UploadFile where
  content_type : Option String
  readResult : Except String (List Nat)
deriving Repr

/-- How one `/transcribe/` request terminates: a 200 JSON body (list of
key/value pairs), a raised `HTTPException(status_code, detail)`, or an
unhandled Python exception escaping the handler (named by its class). -/
inductive TranscribeOutcome where
  | jsonOk (fields : List (String × String))
  | httpError (status : Nat) (detail : String)
  | pyError (errorClass : String)
deriving DecidableEq, Repr

/-- HTTP status the framework sends for each outcome: 200 for a dict return
value, the carried code for an `HTTPException`, 500 for an unhandled
exception (Starlette default). -/
def TranscribeOutcome.statusCode : TranscribeOutcome → Nat
  | .jsonOk _ => 200
  | .httpError s _ => s
  | .pyError _ => 500

/-- Result of one `/transcribe/` request: the outcome, whether the
temporary file was created (`NamedTemporaryFile` ran), whether it still
exists on disk after the handler (its `finally` block) finished, and
whether the Whisper model was invoked. -/
structure TranscribeRun where
  outcome : TranscribeOutcome
  tempFileCreated : Bool
  tempFileExistsAfter : Bool
  modelInvoked : Bool
deriving DecidableEq, Repr

/-- Shallow embedding of the `transcribe_audio` handler of `main.py`,
parametrized by the model handle and the fresh name `tempfile` picks.

Control flow of the source, in order:
1. `file.content_type.startswith("audio/")` on a `None` content type
   raises `AttributeError` (no `try` is active yet, so it escapes);
2. a present content type not starting with `"audio/"` raises
   `HTTPException(400, "Invalid file type. Please upload an audio file.")`;
3. inside the `try`, `NamedTemporaryFile(delete=False)` creates the file
   on disk; if `tmp_file.write(await file.read())` then raises, the
   assignment `tmp_file_path = tmp_file.name` never runs, the `except`
   turns the exception into `HTTPException(500, "An error occurred: ...")`,
   and the `finally` guard `if tmp_file_path and os.path.exists(...)` sees
   `tmp_file_path = None` and does NOT remove the file: it leaks;
4. with the path recorded, `asr_model.transcribe` either succeeds (200
   JSON with the stripped text) or raises (500 `HTTPException`), and the
   `finally` removes the file in both cases. -/
def transcribe_audio (asr_model : ASRModel) (tmp_name : String) (file : UploadFile) :
    TranscribeRun :=
  match file.content_type with
  | none =>
      { outcome := .pyError "AttributeError",
        tempFileCreated := false, tempFileExistsAfter := false, modelInvoked := false }
  | some ct =>
      if pyStartswith ct "audio/" = false then
        { outcome := .httpError 400 "Invalid file type. Please upload an audio file.",
          tempFileCreated := false, tempFileExistsAfter := false, modelInvoked := false }
      else
        match file.readResult with
        | .error e =>
            { outcome := .httpError 500 ("An error occurred: " ++ e),
              tempFileCreated := true, tempFileExistsAfter := true, modelInvoked := false }
        | .ok _bytes =>
            match asr_model tmp_name with
            | .ok result =>
                { outcome := .jsonOk [("transcribed_text", pyStrip result.text)],
                  tempFileCreated := true, tempFileExistsAfter := false, modelInvoked := true }
            | .error e =>
                { outcome := .httpError 500 ("An error occurred: " ++ e),
                  tempFileCreated := true, tempFileExistsAfter := false, modelInvoked := true }

/-- C2: when the synthesis model handle is unavailable (`tts_pipeline is
None`), every `/tts` call returns a 500 response with the plain-text
diagnostic "Model not available. Check server logs.", without invoking the
synthesis model. -/
theorem tts_model_unavailable_returns_500 (request : TextRequest) :
    (text_to_speech none request).response =
      { status := 500, media_type := none,
        content := .text "Model not available. Check server logs." } ∧
    (text_to_speech none request).modelInvoked = false :=
  ⟨rfl, rfl⟩

/-- C3: when the pipeline produces an empty sequence of chunks, `/tts`
returns a 400 response with the "No audio generated" diagnostic; an
internal failure instead returns status 500, so the two conditions are
distinguishable by status code. -/
theorem tts_empty_chunks_returns_400 (p : Pipeline) (request : TextRequest)
    (hp : p request.text request.voice = Except.ok [])
    : (text_to_speech (some p) request).response =
        { status := 400, media_type := none,
          content := .text "No audio generated for the provided text." } ∧
      ∀ (q : Pipeline) (e : String), q request.text request.voice = Except.error e →
        (text_to_speech (some q) request).response.status = 500 := by
  constructor
  · simp [text_to_speech, hp]
  · intro q e hq
    simp [text_to_speech, hq]

/-- Witness for C3 at a concrete pipeline yielding no chunks. -/
theorem tts_empty_chunks_returns_400_witness :
    ((fun _ _ => Except.ok []) : Pipeline) "hi" "af_heart" = Except.ok [] ∧
    (text_to_speech (some (fun _ _ => Except.ok [])) { text := "hi" }).response =
      { status := 400, media_type := none,
        content := .text "No audio generated for the provided text." } :=
  ⟨rfl, (tts_empty_chunks_returns_400 (fun _ _ => Except.ok []) { text := "hi" } rfl).1⟩

/-- C4: when the pipeline produces a non-empty sequence of chunks, `/tts`
drains the whole sequence and returns a 200 WAV response whose samples are
the concatenation (`List.flatten`) of all produced chunks in production
order. -/
theorem tts_concatenates_chunks_in_order (p : Pipeline) (request : TextRequest)
    (generator : KGenerator)
    (hp : p request.text request.voice = Except.ok generator)
    (hne : generator ≠ []) :
    (text_to_speech (some p) request).response =
      { status := 200, media_type := some "audio/wav",
        content := .wav { sampleRate := 24000,
                          samples := (generator.map (fun g => g.2.2)).flatten } } := by
  cases generator with
  | nil => exact absurd rfl hne
  | cons g gs => simp [text_to_speech, hp]

/-- Witness for C4: chunks [A, B, C] with A = [1, 2], B = [3], C = [4, 5, 6]
concatenate to A ++ B ++ C = [1, 2, 3, 4, 5, 6]. -/
theorem tts_concatenates_chunks_in_order_witness :
    (text_to_speech
      (some (fun _ _ => Except.ok
        [("ga", "pa", [1, 2]), ("gb", "pb", [3]), ("gc", "pc", [4, 5, 6])]))
      { text := "hello world" }).response =
      { status := 200, media_type := some "audio/wav",
        content := .wav { sampleRate := 24000, samples := [1, 2, 3, 4, 5, 6] } } := by
  have h := tts_concatenates_chunks_in_order
    (fun _ _ => Except.ok [("ga", "pa", [1, 2]), ("gb", "pb", [3]), ("gc", "pc", [4, 5, 6])])
    { text := "hello world" }
    [("ga", "pa", [1, 2]), ("gb", "pb", [3]), ("gc", "pc", [4, 5, 6])]
    rfl (List.cons_ne_nil _ _)
  simpa using h

/-- C5: every successful `/tts` response (status 200) carries media type
audio/wav and a WAV body at the fixed sample rate 24000. -/
theorem tts_success_is_wav_24000 (tts_pipeline : Option Pipeline) (request : TextRequest)
    (h200 : (text_to_speech tts_pipeline request).response.status = 200) :
    (text_to_speech tts_pipeline request).response.media_type = some "audio/wav" ∧
    ∃ samples, (text_to_speech tts_pipeline request).response.content =
      .wav { sampleRate := 24000, samples := samples } := by
  cases tts_pipeline with
  | none => simp [text_to_speech] at h200
  | some p =>
    cases hp : p request.text request.voice with
    | error e => simp [text_to_speech, hp] at h200
    | ok generator =>
      cases generator with
      | nil => simp [text_to_speech, hp] at h200
      | cons g gs =>
        refine ⟨?_, ((g :: gs).map (fun t => t.2.2)).flatten, ?_⟩ <;>
          simp [text_to_speech, hp]

/-- Witness for C5 at a concrete single-chunk pipeline. -/
theorem tts_success_is_wav_24000_witness :
    (text_to_speech (some (fun _ _ => Except.ok [("g", "p", [7, 8])]))
      { text := "abc" }).response.media_type = some "audio/wav" ∧
    ∃ samples, (text_to_speech (some (fun _ _ => Except.ok [("g", "p", [7, 8])]))
      { text := "abc" }).response.content =
      Body.wav { sampleRate := 24000, samples := samples } :=
  tts_success_is_wav_24000 (some (fun _ _ => Except.ok [("g", "p", [7, 8])]))
    { text := "abc" } rfl

/-- C9: for a synthesis request whose text is empty or whitespace-only, for
which the (external) pipeline yields no chunks, `/tts` returns the
"no audio" 400 condition: no unhandled exception and not a 500 response. -/
theorem tts_whitespace_text_no_crash (p : Pipeline) (request : TextRequest)
    (hws : pyStrip request.text = "")
    (hp : p request.text request.voice = Except.ok []) :
    (text_to_speech (some p) request).response.status = 400 ∧
    (text_to_speech (some p) request).response.content =
      .text "No audio generated for the provided text." ∧
    (text_to_speech (some p) request).response.status ≠ 500 := by
  refine ⟨?_, ?_, ?_⟩ <;> simp [text_to_speech, hp]

/-- Witness for C9 at the whitespace-only text "   ". -/
theorem tts_whitespace_text_no_crash_witness :
    pyStrip "   " = "" ∧
    (text_to_speech (some (fun _ _ => Except.ok [])) { text := "   " }).response.status = 400 ∧
    (text_to_speech (some (fun _ _ => Except.ok [])) { text := "   " }).response.status ≠ 500 := by
  have h := tts_whitespace_text_no_crash (fun _ _ => Except.ok []) { text := "   " }
    (by decide) rfl
  exact ⟨by decide, h.1, h.2.2⟩

/-- C1 counterexample: a request that passes the content-type check
("audio/wav") but whose upload write raises ("disk full") creates the
temporary file and leaves it on disk when the handler returns — the claim
that the file is deleted on every exit path, including a failure while
writing the uploaded bytes, is false on the code. -/
theorem transcribe_temp_file_leak_on_write_failure :
    pyStartswith "audio/wav" "audio/" = true ∧
    (transcribe_audio (fun _ => Except.ok { text := "hello" }) "/tmp/tmpabc.wav"
      { content_type := some "audio/wav",
        readResult := Except.error "disk full" }).tempFileCreated = true ∧
    (transcribe_audio (fun _ => Except.ok { text := "hello" }) "/tmp/tmpabc.wav"
      { content_type := some "audio/wav",
        readResult := Except.error "disk full" }).tempFileExistsAfter = true :=
  ⟨rfl, rfl, rfl⟩

/-- C1 amended: for every request that passes the content-type check and
whose uploaded bytes are written successfully, the temporary file no longer
exists on disk when the handler returns, on success and on model failure
alike; (only) when writing the uploaded bytes raises, before
`tmp_file_path` is recorded, does the created file survive the handler. -/
theorem transcribe_temp_file_deleted_after_write_ok (m : ASRModel) (tmp_name : String)
    (file : UploadFile) (ct : String) (bs : List Nat)
    (hct : file.content_type = some ct)
    (hok : pyStartswith ct "audio/" = true)
    (hread : file.readResult = Except.ok bs) :
    (transcribe_audio m tmp_name file).tempFileExistsAfter = false := by
  cases hm : m tmp_name <;> simp [transcribe_audio, hct, hok, hread, hm]

/-- Witness for the amended C1, on both a succeeding and a failing model. -/
theorem transcribe_temp_file_deleted_after_write_ok_witness :
    (transcribe_audio (fun _ => Except.ok { text := " hi " }) "/tmp/t1.wav"
      { content_type := some "audio/mpeg",
        readResult := Except.ok [1, 2, 3] }).tempFileExistsAfter = false ∧
    (transcribe_audio (fun _ => Except.error "unreadable audio") "/tmp/t2.wav"
      { content_type := some "audio/mpeg",
        readResult := Except.ok [1, 2, 3] }).tempFileExistsAfter = false :=
  ⟨transcribe_temp_file_deleted_after_write_ok _ _ _ "audio/mpeg" [1, 2, 3] rfl rfl rfl,
   transcribe_temp_file_deleted_after_write_ok _ _ _ "audio/mpeg" [1, 2, 3] rfl rfl rfl⟩

/-- C6: an uploaded file with a present content type that does not start
with "audio/" is rejected with `HTTPException(400, "Invalid file type.
Please upload an audio file.")`, without invoking the model and without
creating a temporary file. -/
theorem transcribe_rejects_non_audio (m : ASRModel) (tmp_name : String)
    (file : UploadFile) (ct : String)
    (hct : file.content_type = some ct)
    (hna : pyStartswith ct "audio/" = false) :
    (transcribe_audio m tmp_name file).outcome =
      .httpError 400 "Invalid file type. Please upload an audio file." ∧
    (transcribe_audio m tmp_name file).modelInvoked = false ∧
    (transcribe_audio m tmp_name file).tempFileCreated = false := by
  refine ⟨?_, ?_, ?_⟩ <;> simp [transcribe_audio, hct, hna]

/-- Witness for C6 at content type text/plain. -/
theorem transcribe_rejects_non_audio_witness :
    pyStartswith "text/plain" "audio/" = false ∧
    (transcribe_audio (fun _ => Except.ok { text := "x" }) "/tmp/t.wav"
      { content_type := some "text/plain",
        readResult := Except.ok [0] }).outcome =
      TranscribeOutcome.httpError 400 "Invalid file type. Please upload an audio file." :=
  ⟨by decide,
   (transcribe_rejects_non_audio (fun _ => Except.ok { text := "x" }) "/tmp/t.wav"
     { content_type := some "text/plain", readResult := Except.ok [0] }
     "text/plain" rfl (by decide)).1⟩

/-- C7: when the content-type check passes, the bytes are written, and the
model succeeds with result text t, the handler returns status 200 with body
the key transcribed_text mapped to the result text with surrounding
whitespace stripped. -/
theorem transcribe_success_returns_trimmed_text (m : ASRModel) (tmp_name : String)
    (file : UploadFile) (ct : String) (bs : List Nat) (r : TranscribeResult)
    (hct : file.content_type = some ct)
    (hok : pyStartswith ct "audio/" = true)
    (hread : file.readResult = Except.ok bs)
    (hm : m tmp_name = Except.ok r) :
    (transcribe_audio m tmp_name file).outcome =
      .jsonOk [("transcribed_text", pyStrip r.text)] ∧
    (transcribe_audio m tmp_name file).outcome.statusCode = 200 := by
  refine ⟨?_, ?_⟩ <;>
    simp [transcribe_audio, hct, hok, hread, hm, TranscribeOutcome.statusCode]

/-- Witness for C7: model text " hello world " is returned trimmed. -/
theorem transcribe_success_returns_trimmed_text_witness :
    (transcribe_audio (fun _ => Except.ok { text := " hello world " }) "/tmp/t.wav"
      { content_type := some "audio/wav",
        readResult := Except.ok [9, 9] }).outcome =
      TranscribeOutcome.jsonOk [("transcribed_text", "hello world")] := by
  have h := (transcribe_success_returns_trimmed_text
    (fun _ => Except.ok { text := " hello world " }) "/tmp/t.wav"
    { content_type := some "audio/wav", readResult := Except.ok [9, 9] }
    "audio/wav" [9, 9] { text := " hello world " } rfl rfl rfl rfl).1
  simpa using h

/-- C8: when the content-type check passes, the bytes are written, and the
model raises with message e, the handler answers with
`HTTPException(500, "An error occurred: " ++ e)` — carrying the underlying
message — and returns no partial transcription result. -/
theorem transcribe_model_failure_returns_500 (m : ASRModel) (tmp_name : String)
    (file : UploadFile) (ct : String) (bs : List Nat) (e : String)
    (hct : file.content_type = some ct)
    (hok : pyStartswith ct "audio/" = true)
    (hread : file.readResult = Except.ok bs)
    (hm : m tmp_name = Except.error e) :
    (transcribe_audio m tmp_name file).outcome =
      .httpError 500 ("An error occurred: " ++ e) ∧
    (transcribe_audio m tmp_name file).outcome.statusCode = 500 ∧
    ∀ fields, (transcribe_audio m tmp_name file).outcome ≠ .jsonOk fields := by
  refine ⟨?_, ?_, ?_⟩ <;>
    simp [transcribe_audio, hct, hok, hread, hm, TranscribeOutcome.statusCode]

/-- Witness for C8 at a model raising "unreadable audio". -/
theorem transcribe_model_failure_returns_500_witness :
    (transcribe_audio (fun _ => Except.error "unreadable audio") "/tmp/t.wav"
      { content_type := some "audio/ogg",
        readResult := Except.ok [5] }).outcome =
      TranscribeOutcome.httpError 500 "An error occurred: unreadable audio" := by
  have h := (transcribe_model_failure_returns_500
    (fun _ => Except.error "unreadable audio") "/tmp/t.wav"
    { content_type := some "audio/ogg", readResult := Except.ok [5] }
    "audio/ogg" [5] "unreadable audio" rfl rfl rfl rfl).1
  simpa using h

/-- C10: an absent (None) content type makes the check itself raise an
AttributeError instead of returning the 400 response; the 400 rejection is
reached only for a request whose content type is present and does not start
with "audio/". -/
theorem transcribe_none_content_type_raises (m : ASRModel) (tmp_name : String)
    (file : UploadFile)
    (hct : file.content_type = none) :
    (transcribe_audio m tmp_name file).outcome = .pyError "AttributeError" ∧
    (∀ d, (transcribe_audio m tmp_name file).outcome ≠ .httpError 400 d) ∧
    ∀ (g : UploadFile) (d : String),
      (transcribe_audio m tmp_name g).outcome = .httpError 400 d →
      ∃ ct, g.content_type = some ct ∧ pyStartswith ct "audio/" = false := by
  refine ⟨by simp [transcribe_audio, hct], by simp [transcribe_audio, hct], ?_⟩
  intro g d hg
  cases hgct : g.content_type with
  | none => simp [transcribe_audio, hgct] at hg
  | some ct =>
    refine ⟨ct, rfl, ?_⟩
    cases hna : pyStartswith ct "audio/" with
    | false => rfl
    | true =>
      exfalso
      cases hread : g.readResult with
      | error e => simp [transcribe_audio, hgct, hna, hread] at hg
      | ok bs =>
        cases hm : m tmp_name with
        | ok r => simp [transcribe_audio, hgct, hna, hread, hm] at hg
        | error e => simp [transcribe_audio, hgct, hna, hread, hm] at hg

/-- Witness for C10 at a file with no declared content type. -/
theorem transcribe_none_content_type_raises_witness :
    (transcribe_audio (fun _ => Except.ok { text := "x" }) "/tmp/t.wav"
      { content_type := none, readResult := Except.ok [0] }).outcome =
      TranscribeOutcome.pyError "AttributeError" :=
  (transcribe_none_content_type_raises (fun _ => Except.ok { text := "x" }) "/tmp/t.wav"
    { content_type := none, readResult := Except.ok [0] } rfl).1

end AudioService
